import Mathlib

/-!
Verification development for the `dualshock3` controller library.

The event-derivation engine (`ControllerHandler::controller_update` in
`src/lib.rs`, lines 56-139) is embedded as a pure function from the
controller state and the two deadzone thresholds to the ordered list of
events passed to `on_event`, in call order.  The sampling loop
(`read_controller`, lines 147-199) is embedded as a small-step machine
over its control-flow phases, driven by an environment oracle (stop
flag, visible device list, read result).

The `controller` module (`src/controller.rs`) is referenced by
`src/lib.rs` but its source is not available; the types and accessors it
provides (`Coordinate`, `Controller`, `ControllerValues`, `Button`,
`changed_buttons`, `length`, `update`) are modelled from the spec, each
marked `Modelled from the spec:` in its doc comment.

Scalars are modelled as `ℚ` (the Rust code uses `f64`; no claim in
scope depends on rounding, infinities or NaN).
-/

namespace DS3

/-- `LR`: which side a stick or trigger event belongs to (`src/lib.rs` lines 9-12). -/
inductive LR
| Left
| Right
deriving DecidableEq

/-- Modelled from the spec: `Coordinate` lives in `src/controller.rs`,
which is not under `src/`; per spec §3 it is a two-dimensional
normalized vector exposing a Euclidean `length()` and a canonical
`zero()`. -/
structure Coordinate where
  x : ℚ
  y : ℚ
deriving DecidableEq

/-- Modelled from the spec: the canonical zero coordinate. -/
def Coordinate.zero : Coordinate := ⟨0, 0⟩

/-- The squared Euclidean length `x² + y²` of a coordinate. -/
def Coordinate.lengthSq (c : Coordinate) : ℚ :=
  c.x * c.x + c.y * c.y

/-- Modelled from the spec: the test `c.length() > t` used by
`controller_update`, where `length()` is the Euclidean magnitude
(spec §3).  Written through its decidable characterization over `ℚ`
(`√s > t ↔ t < 0 ∨ t² < s` for `s ≥ 0`); theorem `lengthGt_iff_sqrt`
below proves this is exactly the comparison against the real square
root. -/
def Coordinate.lengthGt (c : Coordinate) (t : ℚ) : Bool :=
  decide (t < 0 ∨ t * t < c.lengthSq)

/-- Modelled from the spec: the fixed enumerated `Button` domain lives
in `src/controller.rs`, which is not under `src/`; the spec (§8) names
buttons `A` and `B` in its scenarios, so a small concrete enumeration
is used.  No claim depends on which buttons exist, only on set
operations over them. -/
inductive Button
| A
| B
| X
| Y
deriving DecidableEq

/-- Canonical enumeration of all buttons, fixing the (otherwise
unspecified) iteration order of the Rust `HashSet`. -/
def Button.all : List Button := [Button.A, Button.B, Button.X, Button.Y]

/-- `StickEvt` (`src/lib.rs` lines 15-19). -/
inductive StickEvt
| Moved (c : Coordinate)
| Active (c : Coordinate)
| ToOrigin
deriving DecidableEq

/-- `ButtonEvt` (`src/lib.rs` lines 21-25). -/
inductive ButtonEvt
| Down
| Pressed
| Up
deriving DecidableEq

/-- `TriggerEvt` (`src/lib.rs` lines 27-31). -/
inductive TriggerEvt
| Moved (v : ℚ)
| Active (v : ℚ)
| ToOrigin
deriving DecidableEq

/-- `HidEvent` (`src/lib.rs` lines 34-38). -/
inductive HidEvent
| Button (b : DS3.Button) (e : ButtonEvt)
| Stick (s : LR) (e : StickEvt)
| Trigger (s : LR) (e : TriggerEvt)
deriving DecidableEq

/-- Modelled from the spec: one decoded snapshot (spec §3) — two stick
coordinates, two trigger magnitudes, and the set of currently pressed
buttons.  Defined in `src/controller.rs`, which is not under `src/`. -/
structure ControllerValues where
  left_pos : Coordinate
  right_pos : Coordinate
  left_trigger : ℚ
  right_trigger : ℚ
  buttons : Finset Button
deriving DecidableEq

/-- Modelled from the spec: `Controller` (spec §3, §4.1) owns the
current and previous snapshot plus the four per-axis change flags
computed at update time.  Defined in `src/controller.rs`, which is not
under `src/`. -/
structure Controller where
  current : ControllerValues
  previous : ControllerValues
  left_pos_changed : Bool
  right_pos_changed : Bool
  left_trigger_changed : Bool
  right_trigger_changed : Bool
deriving DecidableEq

/-- Modelled from the spec: `Controller::new(initial)` (spec §4.1). -/
def Controller.new (v : ControllerValues) : Controller :=
  ⟨v, v, false, false, false, false⟩

/-- Modelled from the spec: `Controller::update` (spec §4.1) replaces
current with the new values, demotes the old current to previous, and
recomputes each change flag by equality comparison of old-current
against new-current ("changed" means any numeric difference). -/
def Controller.update (c : Controller) (v : ControllerValues) : Controller :=
  { current := v
    previous := c.current
    left_pos_changed := decide (c.current.left_pos ≠ v.left_pos)
    right_pos_changed := decide (c.current.right_pos ≠ v.right_pos)
    left_trigger_changed := decide (c.current.left_trigger ≠ v.left_trigger)
    right_trigger_changed := decide (c.current.right_trigger ≠ v.right_trigger) }

/-- Accessor `left_pos()` (spec §4.1): current left stick coordinate. -/
def Controller.left_pos (c : Controller) : Coordinate := c.current.left_pos

/-- Accessor `right_pos()` (spec §4.1). -/
def Controller.right_pos (c : Controller) : Coordinate := c.current.right_pos

/-- Accessor `left_trigger()` (spec §4.1). -/
def Controller.left_trigger (c : Controller) : ℚ := c.current.left_trigger

/-- Accessor `right_trigger()` (spec §4.1). -/
def Controller.right_trigger (c : Controller) : ℚ := c.current.right_trigger

/-- Modelled from the spec: `changed_buttons()` (spec §4.1) returns
`(pressed, held, released)` computed by set difference between the
current and previous button sets.  The middle component is named
`active` in `src/lib.rs` line 89. -/
def Controller.changed_buttons (c : Controller) :
    Finset Button × Finset Button × Finset Button :=
  (c.current.buttons \ c.previous.buttons,
   c.current.buttons ∩ c.previous.buttons,
   c.previous.buttons \ c.current.buttons)

/-- Left-stick block of `controller_update` (`src/lib.rs` lines 61-73). -/
def leftStickEvents (c : Controller) (l_stk : ℚ) : List HidEvent :=
  if c.left_pos.lengthGt l_stk then
    if c.left_pos_changed then
      [HidEvent.Stick LR.Left (StickEvt.Moved c.left_pos)]
    else
      [HidEvent.Stick LR.Left (StickEvt.Active c.left_pos)]
  else if c.left_pos_changed then
    [HidEvent.Stick LR.Left StickEvt.ToOrigin]
  else []

/-- Right-stick block of `controller_update` (`src/lib.rs` lines 74-86). -/
def rightStickEvents (c : Controller) (l_stk : ℚ) : List HidEvent :=
  if c.right_pos.lengthGt l_stk then
    if c.right_pos_changed then
      [HidEvent.Stick LR.Right (StickEvt.Moved c.right_pos)]
    else
      [HidEvent.Stick LR.Right (StickEvt.Active c.right_pos)]
  else if c.right_pos_changed then
    [HidEvent.Stick LR.Right StickEvt.ToOrigin]
  else []

/-- One `for btn in set.iter()` loop of `controller_update`
(`src/lib.rs` lines 90-104), emitting `evt` for each button of `s`.
The `HashSet` iteration order is unspecified in Rust; the model
iterates in the canonical order `Button.all`. -/
def buttonEvents (s : Finset Button) (evt : ButtonEvt) : List HidEvent :=
  (Button.all.filter (fun b => decide (b ∈ s))).map (fun b => HidEvent.Button b evt)

/-- Left-trigger block of `controller_update` (`src/lib.rs` lines 109-123). -/
def leftTriggerEvents (c : Controller) (l_tgr : ℚ) : List HidEvent :=
  if c.left_trigger > l_tgr then
    if c.left_trigger_changed then
      [HidEvent.Trigger LR.Left (TriggerEvt.Moved c.left_trigger)]
    else
      [HidEvent.Trigger LR.Left (TriggerEvt.Active c.left_trigger)]
  else if c.left_trigger_changed then
    [HidEvent.Trigger LR.Left TriggerEvt.ToOrigin]
  else []

/-- Right-trigger block of `controller_update` (`src/lib.rs` lines 124-138). -/
def rightTriggerEvents (c : Controller) (l_tgr : ℚ) : List HidEvent :=
  if c.right_trigger > l_tgr then
    if c.right_trigger_changed then
      [HidEvent.Trigger LR.Right (TriggerEvt.Moved c.right_trigger)]
    else
      [HidEvent.Trigger LR.Right (TriggerEvt.Active c.right_trigger)]
  else if c.right_trigger_changed then
    [HidEvent.Trigger LR.Right TriggerEvt.ToOrigin]
  else []

/-- The default `ControllerHandler::controller_update` (`src/lib.rs`
lines 56-139) as the ordered list of events passed to `on_event`:
left stick, right stick, then the three button loops over
`changed_buttons() = (pressed, active, released)` — `Down` for
`pressed`, `Up` for `released`, `Pressed` for `active` — then left and
right trigger. -/
def controller_update (c : Controller) (l_stk l_tgr : ℚ) : List HidEvent :=
  leftStickEvents c l_stk
    ++ rightStickEvents c l_stk
    ++ buttonEvents c.changed_buttons.1 ButtonEvt.Down
    ++ buttonEvents c.changed_buttons.2.2 ButtonEvt.Up
    ++ buttonEvents c.changed_buttons.2.1 ButtonEvt.Pressed
    ++ leftTriggerEvents c l_tgr
    ++ rightTriggerEvents c l_tgr

/-- The default `ControllerHandler::controller_update` (`src/lib.rs`
lines 56-139) embedded with the handler's mutable state threaded
explicitly: each `self.on_event(e)` call becomes one application of
`on_event` to the running state, in source order.  This is the direct
embedding of the `&mut self` dispatch; `controller_update` above is its
event trace. -/
def controller_update_st {σ : Type} (on_event : σ → HidEvent → σ)
    (c : Controller) (l_stk l_tgr : ℚ) (s0 : σ) : σ :=
  let s1 :=
    if c.left_pos.lengthGt l_stk then
      if c.left_pos_changed then
        on_event s0 (HidEvent.Stick LR.Left (StickEvt.Moved c.left_pos))
      else
        on_event s0 (HidEvent.Stick LR.Left (StickEvt.Active c.left_pos))
    else if c.left_pos_changed then
      on_event s0 (HidEvent.Stick LR.Left StickEvt.ToOrigin)
    else s0
  let s2 :=
    if c.right_pos.lengthGt l_stk then
      if c.right_pos_changed then
        on_event s1 (HidEvent.Stick LR.Right (StickEvt.Moved c.right_pos))
      else
        on_event s1 (HidEvent.Stick LR.Right (StickEvt.Active c.right_pos))
    else if c.right_pos_changed then
      on_event s1 (HidEvent.Stick LR.Right StickEvt.ToOrigin)
    else s1
  let s3 := (Button.all.filter (fun b => decide (b ∈ c.changed_buttons.1))).foldl
    (fun s b => on_event s (HidEvent.Button b ButtonEvt.Down)) s2
  let s4 := (Button.all.filter (fun b => decide (b ∈ c.changed_buttons.2.2))).foldl
    (fun s b => on_event s (HidEvent.Button b ButtonEvt.Up)) s3
  let s5 := (Button.all.filter (fun b => decide (b ∈ c.changed_buttons.2.1))).foldl
    (fun s b => on_event s (HidEvent.Button b ButtonEvt.Pressed)) s4
  let s6 :=
    if c.left_trigger > l_tgr then
      if c.left_trigger_changed then
        on_event s5 (HidEvent.Trigger LR.Left (TriggerEvt.Moved c.left_trigger))
      else
        on_event s5 (HidEvent.Trigger LR.Left (TriggerEvt.Active c.left_trigger))
    else if c.left_trigger_changed then
      on_event s5 (HidEvent.Trigger LR.Left TriggerEvt.ToOrigin)
    else s5
  if c.right_trigger > l_tgr then
    if c.right_trigger_changed then
      on_event s6 (HidEvent.Trigger LR.Right (TriggerEvt.Moved c.right_trigger))
    else
      on_event s6 (HidEvent.Trigger LR.Right (TriggerEvt.Active c.right_trigger))
  else if c.right_trigger_changed then
    on_event s6 (HidEvent.Trigger LR.Right TriggerEvt.ToOrigin)
  else s6

/-- Recognizer for left-stick events (the events produced by
`src/lib.rs` lines 61-73). -/
def onLeftStick : HidEvent → Bool
  | HidEvent.Stick LR.Left _ => true
  | _ => false

/-- Recognizer for right-stick events. -/
def onRightStick : HidEvent → Bool
  | HidEvent.Stick LR.Right _ => true
  | _ => false

/-- Recognizer for left-trigger events. -/
def onLeftTrigger : HidEvent → Bool
  | HidEvent.Trigger LR.Left _ => true
  | _ => false

/-- Recognizer for right-trigger events. -/
def onRightTrigger : HidEvent → Bool
  | HidEvent.Trigger LR.Right _ => true
  | _ => false

/-- Emission category of an event, numbering the seven blocks of
`controller_update` in source order: left stick, right stick, button
down-edges, button up-edges, button held-level, left trigger, right
trigger. -/
def category : HidEvent → ℕ
  | HidEvent.Stick LR.Left _ => 0
  | HidEvent.Stick LR.Right _ => 1
  | HidEvent.Button _ ButtonEvt.Down => 2
  | HidEvent.Button _ ButtonEvt.Up => 3
  | HidEvent.Button _ ButtonEvt.Pressed => 4
  | HidEvent.Trigger LR.Left _ => 5
  | HidEvent.Trigger LR.Right _ => 6

/-! ### The sampling loop `read_controller` (`src/lib.rs` lines 147-199)

The spawned worker is embedded as a small-step machine over its
control-flow phases.  One step consumes one observation of the
environment: the stop flag, the currently visible HID device list
(vendor id, product id pairs) and whether the pending blocking read
succeeds. -/

/-- One observation of the sampling thread's environment. -/
structure Env where
  stopped : Bool
  devices : List (Nat × Nat)
  readOk : Bool
deriving DecidableEq

/-- The scan of `api.device_list()` in `src/lib.rs` lines 163-169:
some visible device matches `(vid, pid) = (1356, 616)`. -/
def foundDevice (ds : List (Nat × Nat)) : Bool :=
  ds.any (fun d => d.1 == 1356 && d.2 == 616)

/-- Control-flow phases of the worker of `read_controller`:
`outerCheck` is the `while !stopped.get()` condition of the outer
reconnect loop (line 154), `discovery` the `while !found` device
polling loop (lines 160-174), `reading` the inner read loop
(lines 182-196), `done` thread exit. -/
inductive Phase
| outerCheck
| discovery
| reading
| done
deriving DecidableEq

/-- Externally visible actions of one step of the worker. -/
inductive LoopAct
| refresh
| sleep (ms : Nat)
| openDevice
| readReport
| decode
| updateController
| handlerUpdate
deriving DecidableEq

/-- One step of the worker of `read_controller` (`src/lib.rs` lines
151-197).  In phase `discovery` the loop refreshes and scans the
device list and either opens the device (found) or sleeps for the
fixed `dur = 1000` milliseconds and retries (not found); the stop flag
is not consulted there.  In phase `reading` the stop flag is checked,
then one blocking read is performed: on success the raw report is
decoded (`ControllerValues::new`), `Controller::update` runs, then the
handler's `controller_update`; on failure the inner loop breaks back
to the outer `while !stopped` check. -/
def loopStep (e : Env) : Phase → Phase × List LoopAct
  | Phase.outerCheck =>
      if e.stopped then (Phase.done, []) else (Phase.discovery, [])
  | Phase.discovery =>
      if foundDevice e.devices then
        (Phase.reading, [LoopAct.refresh, LoopAct.openDevice])
      else
        (Phase.discovery, [LoopAct.refresh, LoopAct.sleep 1000])
  | Phase.reading =>
      if e.stopped then (Phase.outerCheck, [])
      else if e.readOk then
        (Phase.reading,
         [LoopAct.readReport, LoopAct.decode, LoopAct.updateController,
          LoopAct.handlerUpdate])
      else (Phase.outerCheck, [LoopAct.readReport])
  | Phase.done => (Phase.done, [])

/-- `n` steps of the worker from phase `p`, the `k`-th step observing
environment `envs k`. -/
def iterPhase (envs : Nat → Env) (p : Phase) : Nat → Phase
  | 0 => p
  | n + 1 => (loopStep (envs n) (iterPhase envs p n)).1

/-- Emission category of the button block emitting `evt`. -/
def btnCat : ButtonEvt → ℕ
  | ButtonEvt.Down => 2
  | ButtonEvt.Up => 3
  | ButtonEvt.Pressed => 4

/-- The three-way per-axis classification rule of spec §4.2: beyond
the threshold emit `moved` when changed and `act` when not; at or
under the threshold emit `origin` exactly when changed; otherwise
nothing. -/
def axisRule (beyond changed : Bool) (moved act origin : HidEvent) : List HidEvent :=
  if beyond then if changed then [moved] else [act]
  else if changed then [origin] else []

/-- Previous snapshot of the spec §8 button scenario: buttons `{A}`,
sticks and triggers at rest. -/
def exPrevVals : ControllerValues :=
  ⟨Coordinate.zero, Coordinate.zero, 0, 0, {Button.A}⟩

/-- Current snapshot of the spec §8 button scenario: buttons `{A, B}`. -/
def exCurVals : ControllerValues :=
  ⟨Coordinate.zero, Coordinate.zero, 0, 0, {Button.A, Button.B}⟩

/-- The spec §8 button scenario controller: previous buttons `{A}`,
current buttons `{A, B}`, everything else unchanged at rest. -/
def exController : Controller := (Controller.new exPrevVals).update exCurVals

/-- Witness snapshot: left stick at `(2, 0)` (length `2`), everything
else at rest. -/
def wStickVals : ControllerValues := ⟨⟨2, 0⟩, Coordinate.zero, 0, 0, ∅⟩

/-- Witness snapshot: everything at rest. -/
def wZeroVals : ControllerValues := ⟨Coordinate.zero, Coordinate.zero, 0, 0, ∅⟩

/-- Witness environment: stop requested, two visible devices of which
none matches both `vid = 1356` and `pid = 616`, reads succeeding. -/
def wEnv : Env := ⟨true, [(1356, 0), (0, 616)], true⟩

/-- Witness snapshot: both sticks at `(2, 0)` (length `2`), triggers at
rest. -/
def wBothSticksVals : ControllerValues := ⟨⟨2, 0⟩, ⟨2, 0⟩, 0, 0, ∅⟩

/-- Witness controller: all four axes away from rest (left and right
stick at `(2, 0)`, both triggers at `2`), nothing changed this cycle. -/
def wActiveController : Controller :=
  ⟨⟨⟨2, 0⟩, ⟨2, 0⟩, 2, 2, ∅⟩, wZeroVals, false, false, false, false⟩

/-- Witness controller: all four axes at rest, every axis changed this
cycle. -/
def wChangedZeroController : Controller :=
  ⟨wZeroVals, wStickVals, true, true, true, true⟩

/-- Witness controller: all four axes at rest, nothing changed this
cycle. -/
def wRestController : Controller :=
  ⟨wZeroVals, wZeroVals, false, false, false, false⟩

/-! ### Chunk analysis of `controller_update` -/

theorem Coordinate.lengthSq_nonneg (c : Coordinate) : 0 ≤ c.lengthSq :=
  add_nonneg (mul_self_nonneg c.x) (mul_self_nonneg c.y)

/-- Faithfulness of the embedded comparison: `lengthGt c t` holds
exactly when the real Euclidean length `√(x² + y²)` is strictly
greater than the threshold `t`. -/
theorem lengthGt_iff_sqrt (c : Coordinate) (t : ℚ) :
    c.lengthGt t = true ↔ (t : ℝ) < Real.sqrt ((c.lengthSq : ℚ) : ℝ) := by
  unfold Coordinate.lengthGt
  rcases lt_or_le t 0 with ht | ht
  · simp only [decide_eq_true_eq]
    constructor
    · intro _
      calc (t : ℝ) < 0 := by exact_mod_cast ht
        _ ≤ Real.sqrt ((c.lengthSq : ℚ) : ℝ) := Real.sqrt_nonneg _
    · intro _
      exact Or.inl ht
  · simp only [decide_eq_true_eq]
    have hcast : (0 : ℝ) ≤ (t : ℝ) := by exact_mod_cast ht
    rw [show ((c.lengthSq : ℚ) : ℝ) = ((c.lengthSq : ℚ) : ℝ) from rfl]
    constructor
    · intro h
      rcases h with h | h
      · exact absurd h (not_lt.mpr ht)
      · rw [Real.lt_sqrt hcast]
        have : ((t * t : ℚ) : ℝ) < ((c.lengthSq : ℚ) : ℝ) := by exact_mod_cast h
        calc (t : ℝ) ^ 2 = ((t * t : ℚ) : ℝ) := by push_cast; ring
          _ < _ := this
    · intro h
      right
      rw [Real.lt_sqrt hcast] at h
      have : ((t * t : ℚ) : ℝ) < ((c.lengthSq : ℚ) : ℝ) := by
        calc ((t * t : ℚ) : ℝ) = (t : ℝ) ^ 2 := by push_cast; ring
          _ < _ := h
      exact_mod_cast this

theorem Button.mem_all (b : Button) : b ∈ Button.all := by
  cases b <;> decide

theorem Button.all_nodup : Button.all.Nodup := by decide

theorem onLeftStick_iff_category (e : HidEvent) :
    onLeftStick e = true ↔ category e = 0 := by
  cases e with
  | Button b be => cases be <;> simp [onLeftStick, category]
  | Stick s se => cases s <;> simp [onLeftStick, category]
  | Trigger s te => cases s <;> simp [onLeftStick, category]

theorem onRightStick_iff_category (e : HidEvent) :
    onRightStick e = true ↔ category e = 1 := by
  cases e with
  | Button b be => cases be <;> simp [onRightStick, category]
  | Stick s se => cases s <;> simp [onRightStick, category]
  | Trigger s te => cases s <;> simp [onRightStick, category]

theorem onLeftTrigger_iff_category (e : HidEvent) :
    onLeftTrigger e = true ↔ category e = 5 := by
  cases e with
  | Button b be => cases be <;> simp [onLeftTrigger, category]
  | Stick s se => cases s <;> simp [onLeftTrigger, category]
  | Trigger s te => cases s <;> simp [onLeftTrigger, category]

theorem onRightTrigger_iff_category (e : HidEvent) :
    onRightTrigger e = true ↔ category e = 6 := by
  cases e with
  | Button b be => cases be <;> simp [onRightTrigger, category]
  | Stick s se => cases s <;> simp [onRightTrigger, category]
  | Trigger s te => cases s <;> simp [onRightTrigger, category]

theorem category_mem_leftStickEvents {c : Controller} {ls : ℚ} :
    ∀ e ∈ leftStickEvents c ls, category e = 0 := by
  intro e he
  unfold leftStickEvents at he
  split_ifs at he <;> simp at he <;> subst he <;> rfl

theorem category_mem_rightStickEvents {c : Controller} {ls : ℚ} :
    ∀ e ∈ rightStickEvents c ls, category e = 1 := by
  intro e he
  unfold rightStickEvents at he
  split_ifs at he <;> simp at he <;> subst he <;> rfl

theorem category_mem_buttonEvents {s : Finset Button} {evt : ButtonEvt} :
    ∀ e ∈ buttonEvents s evt, category e = btnCat evt := by
  intro e he
  unfold buttonEvents at he
  simp only [List.mem_map, List.mem_filter] at he
  obtain ⟨b, _, rfl⟩ := he
  cases evt <;> rfl

theorem category_mem_leftTriggerEvents {c : Controller} {lt : ℚ} :
    ∀ e ∈ leftTriggerEvents c lt, category e = 5 := by
  intro e he
  unfold leftTriggerEvents at he
  split_ifs at he <;> simp at he <;> subst he <;> rfl

theorem category_mem_rightTriggerEvents {c : Controller} {lt : ℚ} :
    ∀ e ∈ rightTriggerEvents c lt, category e = 6 := by
  intro e he
  unfold rightTriggerEvents at he
  split_ifs at he <;> simp at he <;> subst he <;> rfl

theorem filter_eq_self_of_category {p : HidEvent → Bool} {n : ℕ} {l : List HidEvent}
    (hp : ∀ e, p e = true ↔ category e = n) (hl : ∀ e ∈ l, category e = n) :
    l.filter p = l :=
  List.filter_eq_self.mpr fun e he => (hp e).mpr (hl e he)

theorem filter_eq_nil_of_category {p : HidEvent → Bool} {n : ℕ} {l : List HidEvent}
    (hp : ∀ e, p e = true ↔ category e = n) (hl : ∀ e ∈ l, category e ≠ n) :
    l.filter p = [] :=
  List.filter_eq_nil_iff.mpr fun e he hc => hl e he ((hp e).mp hc)

theorem controller_update_filter_leftStick (c : Controller) (ls lt : ℚ) :
    (controller_update c ls lt).filter onLeftStick = leftStickEvents c ls := by
  unfold controller_update
  simp only [List.filter_append]
  rw [filter_eq_self_of_category onLeftStick_iff_category category_mem_leftStickEvents,
    filter_eq_nil_of_category onLeftStick_iff_category
      (fun e he => by rw [category_mem_rightStickEvents e he]; decide),
    filter_eq_nil_of_category onLeftStick_iff_category
      (fun e he => by rw [category_mem_buttonEvents e he]; decide),
    filter_eq_nil_of_category onLeftStick_iff_category
      (fun e he => by rw [category_mem_buttonEvents e he]; decide),
    filter_eq_nil_of_category onLeftStick_iff_category
      (fun e he => by rw [category_mem_buttonEvents e he]; decide),
    filter_eq_nil_of_category onLeftStick_iff_category
      (fun e he => by rw [category_mem_leftTriggerEvents e he]; decide),
    filter_eq_nil_of_category onLeftStick_iff_category
      (fun e he => by rw [category_mem_rightTriggerEvents e he]; decide)]
  simp

theorem controller_update_filter_rightStick (c : Controller) (ls lt : ℚ) :
    (controller_update c ls lt).filter onRightStick = rightStickEvents c ls := by
  unfold controller_update
  simp only [List.filter_append]
  rw [filter_eq_self_of_category onRightStick_iff_category category_mem_rightStickEvents,
    filter_eq_nil_of_category onRightStick_iff_category
      (fun e he => by rw [category_mem_leftStickEvents e he]; decide),
    filter_eq_nil_of_category onRightStick_iff_category
      (fun e he => by rw [category_mem_buttonEvents e he]; decide),
    filter_eq_nil_of_category onRightStick_iff_category
      (fun e he => by rw [category_mem_buttonEvents e he]; decide),
    filter_eq_nil_of_category onRightStick_iff_category
      (fun e he => by rw [category_mem_buttonEvents e he]; decide),
    filter_eq_nil_of_category onRightStick_iff_category
      (fun e he => by rw [category_mem_leftTriggerEvents e he]; decide),
    filter_eq_nil_of_category onRightStick_iff_category
      (fun e he => by rw [category_mem_rightTriggerEvents e he]; decide)]
  simp

theorem controller_update_filter_leftTrigger (c : Controller) (ls lt : ℚ) :
    (controller_update c ls lt).filter onLeftTrigger = leftTriggerEvents c lt := by
  unfold controller_update
  simp only [List.filter_append]
  rw [filter_eq_self_of_category onLeftTrigger_iff_category category_mem_leftTriggerEvents,
    filter_eq_nil_of_category onLeftTrigger_iff_category
      (fun e he => by rw [category_mem_leftStickEvents e he]; decide),
    filter_eq_nil_of_category onLeftTrigger_iff_category
      (fun e he => by rw [category_mem_rightStickEvents e he]; decide),
    filter_eq_nil_of_category onLeftTrigger_iff_category
      (fun e he => by rw [category_mem_buttonEvents e he]; decide),
    filter_eq_nil_of_category onLeftTrigger_iff_category
      (fun e he => by rw [category_mem_buttonEvents e he]; decide),
    filter_eq_nil_of_category onLeftTrigger_iff_category
      (fun e he => by rw [category_mem_buttonEvents e he]; decide),
    filter_eq_nil_of_category onLeftTrigger_iff_category
      (fun e he => by rw [category_mem_rightTriggerEvents e he]; decide)]
  simp

theorem controller_update_filter_rightTrigger (c : Controller) (ls lt : ℚ) :
    (controller_update c ls lt).filter onRightTrigger = rightTriggerEvents c lt := by
  unfold controller_update
  simp only [List.filter_append]
  rw [filter_eq_self_of_category onRightTrigger_iff_category category_mem_rightTriggerEvents,
    filter_eq_nil_of_category onRightTrigger_iff_category
      (fun e he => by rw [category_mem_leftStickEvents e he]; decide),
    filter_eq_nil_of_category onRightTrigger_iff_category
      (fun e he => by rw [category_mem_rightStickEvents e he]; decide),
    filter_eq_nil_of_category onRightTrigger_iff_category
      (fun e he => by rw [category_mem_buttonEvents e he]; decide),
    filter_eq_nil_of_category onRightTrigger_iff_category
      (fun e he => by rw [category_mem_buttonEvents e he]; decide),
    filter_eq_nil_of_category onRightTrigger_iff_category
      (fun e he => by rw [category_mem_buttonEvents e he]; decide),
    filter_eq_nil_of_category onRightTrigger_iff_category
      (fun e he => by rw [category_mem_leftTriggerEvents e he]; decide)]
  simp

theorem count_eq_zero_of_category {e : HidEvent} {l : List HidEvent} {n : ℕ}
    (hl : ∀ x ∈ l, category x = n) (he : category e ≠ n) : l.count e = 0 :=
  List.count_eq_zero.mpr fun hm => he (hl e hm)

theorem button_inj (evt : ButtonEvt) :
    Function.Injective (fun b => HidEvent.Button b evt) := by
  intro a b h
  cases h
  rfl

theorem count_buttonEvents_self (s : Finset Button) (evt : ButtonEvt) (b : Button) :
    (buttonEvents s evt).count (HidEvent.Button b evt) = if b ∈ s then 1 else 0 := by
  unfold buttonEvents
  rw [List.count_map_of_injective _ _ (button_inj evt) b]
  by_cases hb : b ∈ s
  · rw [if_pos hb, List.count_filter (by simp [hb])]
    cases b <;> decide
  · rw [if_neg hb, List.count_eq_zero.mpr]
    intro hmem
    rw [List.mem_filter] at hmem
    simp [hb] at hmem

theorem count_buttonEvents_ne (s : Finset Button) {evt evt' : ButtonEvt} (b : Button)
    (h : evt ≠ evt') : (buttonEvents s evt).count (HidEvent.Button b evt') = 0 := by
  rw [List.count_eq_zero]
  intro hmem
  unfold buttonEvents at hmem
  simp only [List.mem_map, List.mem_filter] at hmem
  obtain ⟨b', _, heq⟩ := hmem
  cases heq
  exact h rfl

theorem pairwise_cat_const {l : List HidEvent} {n : ℕ} (h : ∀ e ∈ l, category e = n) :
    l.Pairwise (fun a b => category a ≤ category b) := by
  induction l with
  | nil => exact List.Pairwise.nil
  | cons a t ih =>
      refine List.Pairwise.cons (fun b hb => ?_) (ih fun e he => h e (List.mem_cons_of_mem a he))
      rw [h a (List.mem_cons_self a t), h b (List.mem_cons_of_mem a hb)]

theorem pairwise_cat_append {l₁ l₂ : List HidEvent} {m : ℕ}
    (h₁ : ∀ e ∈ l₁, category e = m) (h₂ : ∀ e ∈ l₂, m ≤ category e)
    (p₂ : l₂.Pairwise (fun a b => category a ≤ category b)) :
    (l₁ ++ l₂).Pairwise (fun a b => category a ≤ category b) := by
  rw [List.pairwise_append]
  exact ⟨pairwise_cat_const h₁, p₂, fun a ha b hb => (h₁ a ha) ▸ h₂ b hb⟩

theorem pairwise_category_controller_update (c : Controller) (ls lt : ℚ) :
    (controller_update c ls lt).Pairwise (fun a b => category a ≤ category b) := by
  unfold controller_update
  simp only [List.append_assoc]
  refine pairwise_cat_append category_mem_leftStickEvents (fun e _ => Nat.zero_le _) ?_
  refine pairwise_cat_append category_mem_rightStickEvents (fun e he => ?_) ?_
  · simp only [List.mem_append] at he
    rcases he with h | h | h | h | h
    · have := category_mem_buttonEvents e h; simp [btnCat] at this; omega
    · have := category_mem_buttonEvents e h; simp [btnCat] at this; omega
    · have := category_mem_buttonEvents e h; simp [btnCat] at this; omega
    · have := category_mem_leftTriggerEvents e h; omega
    · have := category_mem_rightTriggerEvents e h; omega
  refine pairwise_cat_append category_mem_buttonEvents (fun e he => ?_) ?_
  · simp only [List.mem_append] at he
    rcases he with h | h | h | h
    · have := category_mem_buttonEvents e h; simp [btnCat] at this ⊢; omega
    · have := category_mem_buttonEvents e h; simp [btnCat] at this ⊢; omega
    · have := category_mem_leftTriggerEvents e h; simp [btnCat]; omega
    · have := category_mem_rightTriggerEvents e h; simp [btnCat]; omega
  refine pairwise_cat_append category_mem_buttonEvents (fun e he => ?_) ?_
  · simp only [List.mem_append] at he
    rcases he with h | h | h
    · have := category_mem_buttonEvents e h; simp [btnCat] at this ⊢; omega
    · have := category_mem_leftTriggerEvents e h; simp [btnCat]; omega
    · have := category_mem_rightTriggerEvents e h; simp [btnCat]; omega
  refine pairwise_cat_append category_mem_buttonEvents (fun e he => ?_) ?_
  · simp only [List.mem_append] at he
    rcases he with h | h
    · have := category_mem_leftTriggerEvents e h; simp [btnCat]; omega
    · have := category_mem_rightTriggerEvents e h; simp [btnCat]; omega
  refine pairwise_cat_append category_mem_leftTriggerEvents (fun e he => ?_) ?_
  · have := category_mem_rightTriggerEvents e he; omega
  exact pairwise_cat_const category_mem_rightTriggerEvents

set_option maxHeartbeats 2000000 in
theorem controller_update_st_eq_foldl {σ : Type} (on_event : σ → HidEvent → σ)
    (c : Controller) (ls lt : ℚ) (s0 : σ) :
    controller_update_st on_event c ls lt s0 =
      (controller_update c ls lt).foldl on_event s0 := by
  unfold controller_update_st controller_update buttonEvents leftStickEvents
  unfold rightStickEvents leftTriggerEvents rightTriggerEvents
  rw [List.foldl_append, List.foldl_append, List.foldl_append, List.foldl_append,
    List.foldl_append, List.foldl_append, List.foldl_map, List.foldl_map, List.foldl_map]
  split_ifs <;> rfl

theorem count_toOrigin_leftStickEvents (c : Controller) (ls : ℚ) :
    (leftStickEvents c ls).count (HidEvent.Stick LR.Left StickEvt.ToOrigin) =
      if c.left_pos.lengthGt ls = false ∧ c.left_pos_changed = true then 1 else 0 := by
  unfold leftStickEvents
  split_ifs with h1 h2 h3 <;> simp_all [List.count_singleton]

theorem count_toOrigin_controller_update_left (c : Controller) (ls lt : ℚ) :
    (controller_update c ls lt).count (HidEvent.Stick LR.Left StickEvt.ToOrigin) =
      if c.left_pos.lengthGt ls = false ∧ c.left_pos_changed = true then 1 else 0 := by
  unfold controller_update
  rw [List.count_append, List.count_append, List.count_append, List.count_append,
    List.count_append, List.count_append]
  rw [count_eq_zero_of_category category_mem_rightStickEvents (by decide),
    count_eq_zero_of_category category_mem_buttonEvents (by decide),
    count_eq_zero_of_category category_mem_buttonEvents (by decide),
    count_eq_zero_of_category category_mem_buttonEvents (by decide),
    count_eq_zero_of_category category_mem_leftTriggerEvents (by decide),
    count_eq_zero_of_category category_mem_rightTriggerEvents (by decide),
    count_toOrigin_leftStickEvents]
  omega

theorem count_toOrigin_rightStickEvents (c : Controller) (ls : ℚ) :
    (rightStickEvents c ls).count (HidEvent.Stick LR.Right StickEvt.ToOrigin) =
      if c.right_pos.lengthGt ls = false ∧ c.right_pos_changed = true then 1 else 0 := by
  unfold rightStickEvents
  split_ifs with h1 h2 h3 <;> simp_all [List.count_singleton]

theorem count_toOrigin_controller_update_right (c : Controller) (ls lt : ℚ) :
    (controller_update c ls lt).count (HidEvent.Stick LR.Right StickEvt.ToOrigin) =
      if c.right_pos.lengthGt ls = false ∧ c.right_pos_changed = true then 1 else 0 := by
  unfold controller_update
  rw [List.count_append, List.count_append, List.count_append, List.count_append,
    List.count_append, List.count_append]
  rw [count_eq_zero_of_category category_mem_leftStickEvents (by decide),
    count_eq_zero_of_category category_mem_buttonEvents (by decide),
    count_eq_zero_of_category category_mem_buttonEvents (by decide),
    count_eq_zero_of_category category_mem_buttonEvents (by decide),
    count_eq_zero_of_category category_mem_leftTriggerEvents (by decide),
    count_eq_zero_of_category category_mem_rightTriggerEvents (by decide),
    count_toOrigin_rightStickEvents]
  omega

theorem count_down_controller_update (c : Controller) (ls lt : ℚ) (b : Button) :
    (controller_update c ls lt).count (HidEvent.Button b ButtonEvt.Down) =
      if b ∈ c.current.buttons \ c.previous.buttons then 1 else 0 := by
  unfold controller_update
  rw [List.count_append, List.count_append, List.count_append, List.count_append,
    List.count_append, List.count_append]
  rw [count_eq_zero_of_category category_mem_leftStickEvents (by simp [category]),
    count_eq_zero_of_category category_mem_rightStickEvents (by simp [category]),
    count_buttonEvents_self,
    count_buttonEvents_ne _ b (by simp [category]),
    count_buttonEvents_ne _ b (by simp [category]),
    count_eq_zero_of_category category_mem_leftTriggerEvents (by simp [category]),
    count_eq_zero_of_category category_mem_rightTriggerEvents (by simp [category])]
  simp [Controller.changed_buttons]

theorem count_up_controller_update (c : Controller) (ls lt : ℚ) (b : Button) :
    (controller_update c ls lt).count (HidEvent.Button b ButtonEvt.Up) =
      if b ∈ c.previous.buttons \ c.current.buttons then 1 else 0 := by
  unfold controller_update
  rw [List.count_append, List.count_append, List.count_append, List.count_append,
    List.count_append, List.count_append]
  rw [count_eq_zero_of_category category_mem_leftStickEvents (by simp [category]),
    count_eq_zero_of_category category_mem_rightStickEvents (by simp [category]),
    count_buttonEvents_self,
    count_buttonEvents_ne _ b (by simp [category]),
    count_buttonEvents_ne _ b (by simp [category]),
    count_eq_zero_of_category category_mem_leftTriggerEvents (by simp [category]),
    count_eq_zero_of_category category_mem_rightTriggerEvents (by simp [category])]
  simp [Controller.changed_buttons]

theorem count_pressed_controller_update (c : Controller) (ls lt : ℚ) (b : Button) :
    (controller_update c ls lt).count (HidEvent.Button b ButtonEvt.Pressed) =
      if b ∈ c.current.buttons ∩ c.previous.buttons then 1 else 0 := by
  unfold controller_update
  rw [List.count_append, List.count_append, List.count_append, List.count_append,
    List.count_append, List.count_append]
  rw [count_eq_zero_of_category category_mem_leftStickEvents (by simp [category]),
    count_eq_zero_of_category category_mem_rightStickEvents (by simp [category]),
    count_buttonEvents_self,
    count_buttonEvents_ne _ b (by simp [category]),
    count_buttonEvents_ne _ b (by simp [category]),
    count_eq_zero_of_category category_mem_leftTriggerEvents (by simp [category]),
    count_eq_zero_of_category category_mem_rightTriggerEvents (by simp [category])]
  simp [Controller.changed_buttons]

theorem iterPhase_discovery (envs : Nat → Env)
    (h : ∀ k, foundDevice (envs k).devices = false) :
    ∀ n, iterPhase envs Phase.discovery n = Phase.discovery := by
  intro n
  induction n with
  | zero => rfl
  | succ n ih => simp [iterPhase, ih, loopStep, h n]

/-! ### Claims -/

/-- C1: for every controller state and thresholds, the per-axis
classification of `controller_update` follows the three-way rule for
each stick and each trigger independently: beyond the threshold
(Euclidean length for sticks — witnessed by the two `Real.sqrt`
equivalences — scalar comparison for triggers) emit `Moved(current)`
when the axis changed this cycle and `Active(current)` when it did
not; otherwise emit `ToOrigin` exactly when the axis changed; otherwise
emit nothing for that axis. -/
theorem C1_per_axis_classification (c : Controller) (ls lt : ℚ) :
    (controller_update c ls lt).filter onLeftStick =
        axisRule (c.left_pos.lengthGt ls) c.left_pos_changed
          (HidEvent.Stick LR.Left (StickEvt.Moved c.left_pos))
          (HidEvent.Stick LR.Left (StickEvt.Active c.left_pos))
          (HidEvent.Stick LR.Left StickEvt.ToOrigin)
      ∧ (controller_update c ls lt).filter onRightStick =
        axisRule (c.right_pos.lengthGt ls) c.right_pos_changed
          (HidEvent.Stick LR.Right (StickEvt.Moved c.right_pos))
          (HidEvent.Stick LR.Right (StickEvt.Active c.right_pos))
          (HidEvent.Stick LR.Right StickEvt.ToOrigin)
      ∧ (controller_update c ls lt).filter onLeftTrigger =
        axisRule (decide (c.left_trigger > lt)) c.left_trigger_changed
          (HidEvent.Trigger LR.Left (TriggerEvt.Moved c.left_trigger))
          (HidEvent.Trigger LR.Left (TriggerEvt.Active c.left_trigger))
          (HidEvent.Trigger LR.Left TriggerEvt.ToOrigin)
      ∧ (controller_update c ls lt).filter onRightTrigger =
        axisRule (decide (c.right_trigger > lt)) c.right_trigger_changed
          (HidEvent.Trigger LR.Right (TriggerEvt.Moved c.right_trigger))
          (HidEvent.Trigger LR.Right (TriggerEvt.Active c.right_trigger))
          (HidEvent.Trigger LR.Right TriggerEvt.ToOrigin)
      ∧ (c.left_pos.lengthGt ls = true ↔
          (ls : ℝ) < Real.sqrt ((c.left_pos.lengthSq : ℚ) : ℝ))
      ∧ (c.right_pos.lengthGt ls = true ↔
          (ls : ℝ) < Real.sqrt ((c.right_pos.lengthSq : ℚ) : ℝ)) := by
  refine ⟨?_, ?_, ?_, ?_, lengthGt_iff_sqrt _ _, lengthGt_iff_sqrt _ _⟩
  · rw [controller_update_filter_leftStick]; rfl
  · rw [controller_update_filter_rightStick]; rfl
  · rw [controller_update_filter_leftTrigger]
    by_cases h : c.left_trigger > lt <;> simp [leftTriggerEvents, axisRule, h]
  · rw [controller_update_filter_rightTrigger]
    by_cases h : c.right_trigger > lt <;> simp [rightTriggerEvents, axisRule, h]

/-- C2: the events delivered to `on_event` by the default
`controller_update` appear in the fixed total order left stick, right
stick, button down-edges, button up-edges, button held-level, left
trigger, right trigger (event categories are nondecreasing along the
emitted list); in particular with previous buttons `{A}` and current
buttons `{A, B}` the sequence is `Button(B, Down)` then
`Button(A, Pressed)`. -/
theorem C2_fixed_emission_order :
    (∀ (c : Controller) (ls lt : ℚ),
        (controller_update c ls lt).Pairwise (fun a b => category a ≤ category b))
      ∧ controller_update exController 0 0 =
          [HidEvent.Button Button.B ButtonEvt.Down,
           HidEvent.Button Button.A ButtonEvt.Pressed] := by
  refine ⟨pairwise_category_controller_update, ?_⟩
  norm_num [controller_update, exController, exPrevVals, exCurVals, Controller.new,
    Controller.update, leftStickEvents, rightStickEvents, leftTriggerEvents,
    rightTriggerEvents, buttonEvents, Controller.changed_buttons, Controller.left_pos,
    Controller.right_pos, Controller.left_trigger, Controller.right_trigger,
    Coordinate.lengthGt, Coordinate.lengthSq, Coordinate.zero, Button.all]
  decide

/-- C3: in every cycle `controller_update` emits `Button(b, Down)` for
exactly the buttons in the newly-pressed set (in current but not
previous), `Button(b, Up)` for exactly the newly-released set (in
previous but not current) and `Button(b, Pressed)` for exactly the
held set (in both), one event per button: the multiplicity of each
button event in the emitted list is `1` on the corresponding set and
`0` off it. -/
theorem C3_button_set_events (c : Controller) (ls lt : ℚ) (b : Button) :
    (controller_update c ls lt).count (HidEvent.Button b ButtonEvt.Down) =
        (if b ∈ c.current.buttons \ c.previous.buttons then 1 else 0)
      ∧ (controller_update c ls lt).count (HidEvent.Button b ButtonEvt.Up) =
        (if b ∈ c.previous.buttons \ c.current.buttons then 1 else 0)
      ∧ (controller_update c ls lt).count (HidEvent.Button b ButtonEvt.Pressed) =
        (if b ∈ c.current.buttons ∩ c.previous.buttons then 1 else 0) :=
  ⟨count_down_controller_update c ls lt b, count_up_controller_update c ls lt b,
    count_pressed_controller_update c ls lt b⟩

/-- C6: in every cycle the three sets returned by `changed_buttons`
(pressed, held, released) are pairwise disjoint and their union equals
the union of the previous and current snapshots' button sets. -/
theorem C6_button_sets_partition (c : Controller) :
    Disjoint c.changed_buttons.1 c.changed_buttons.2.1
      ∧ Disjoint c.changed_buttons.1 c.changed_buttons.2.2
      ∧ Disjoint c.changed_buttons.2.1 c.changed_buttons.2.2
      ∧ c.changed_buttons.1 ∪ c.changed_buttons.2.1 ∪ c.changed_buttons.2.2
          = c.current.buttons ∪ c.previous.buttons := by
  unfold Controller.changed_buttons
  refine ⟨?_, ?_, ?_, ?_⟩
  · simp only [Finset.disjoint_left, Finset.mem_sdiff, Finset.mem_inter]
    tauto
  · simp only [Finset.disjoint_left, Finset.mem_sdiff]
    tauto
  · simp only [Finset.disjoint_left, Finset.mem_sdiff, Finset.mem_inter]
    tauto
  · apply Finset.ext
    intro x
    simp only [Finset.mem_union, Finset.mem_sdiff, Finset.mem_inter]
    tauto

/-- C7: the event-derivation engine is deterministic, total and
stateless: running the default `controller_update` with an arbitrary
handler (`on_event` folded over arbitrary handler state) equals
folding the handler over the one event list determined purely by
`(controller, stick_threshold, trigger_threshold)` — a total function,
so equal inputs give identical ordered event sequences and no state
beyond `Controller` is retained between invocations. -/
theorem C7_engine_deterministic_pure :
    ∀ (σ : Type) (on_event : σ → HidEvent → σ) (s0 : σ) (c : Controller) (ls lt : ℚ),
      controller_update_st on_event c ls lt s0 =
        (controller_update c ls lt).foldl on_event s0 :=
  fun _ on_event s0 c ls lt => controller_update_st_eq_foldl on_event c ls lt s0

/-- C4: for either stick, when its magnitude crosses from strictly
above the threshold to at-or-below it, exactly one
`Stick(side, ToOrigin)` is emitted for that stick in the crossing
cycle, and none is emitted in a following cycle where that stick's
position stays numerically unchanged at/under the threshold (the
change flag being an equality comparison with the previous
snapshot). -/
theorem C4_toOrigin_exactly_once (c0 : Controller) (v1 v2 : ControllerValues) (ls lt : ℚ) :
    (c0.current.left_pos.lengthGt ls = true →
      v1.left_pos.lengthGt ls = false →
      v2.left_pos = v1.left_pos →
      (controller_update (c0.update v1) ls lt).count
          (HidEvent.Stick LR.Left StickEvt.ToOrigin) = 1
        ∧ (controller_update ((c0.update v1).update v2) ls lt).count
          (HidEvent.Stick LR.Left StickEvt.ToOrigin) = 0)
    ∧ (c0.current.right_pos.lengthGt ls = true →
      v1.right_pos.lengthGt ls = false →
      v2.right_pos = v1.right_pos →
      (controller_update (c0.update v1) ls lt).count
          (HidEvent.Stick LR.Right StickEvt.ToOrigin) = 1
        ∧ (controller_update ((c0.update v1).update v2) ls lt).count
          (HidEvent.Stick LR.Right StickEvt.ToOrigin) = 0) := by
  constructor
  · intro habove hbelow hsame
    have hne : c0.current.left_pos ≠ v1.left_pos := by
      intro he
      rw [he, hbelow] at habove
      simp at habove
    constructor
    · rw [count_toOrigin_controller_update_left]
      have h2 : (c0.update v1).left_pos_changed = true := by
        show decide (c0.current.left_pos ≠ v1.left_pos) = true
        simp [hne]
      rw [if_pos ⟨hbelow, h2⟩]
    · rw [count_toOrigin_controller_update_left, if_neg]
      rintro ⟨-, hc⟩
      have h3 : ((c0.update v1).update v2).left_pos_changed = false := by
        show decide (v1.left_pos ≠ v2.left_pos) = false
        simp [hsame]
      rw [h3] at hc
      simp at hc
  · intro habove hbelow hsame
    have hne : c0.current.right_pos ≠ v1.right_pos := by
      intro he
      rw [he, hbelow] at habove
      simp at habove
    constructor
    · rw [count_toOrigin_controller_update_right]
      have h2 : (c0.update v1).right_pos_changed = true := by
        show decide (c0.current.right_pos ≠ v1.right_pos) = true
        simp [hne]
      rw [if_pos ⟨hbelow, h2⟩]
    · rw [count_toOrigin_controller_update_right, if_neg]
      rintro ⟨-, hc⟩
      have h3 : ((c0.update v1).update v2).right_pos_changed = false := by
        show decide (v1.right_pos ≠ v2.right_pos) = false
        simp [hsame]
      rw [h3] at hc
      simp at hc

/-- Witness for C4: with threshold `1`, both sticks at `(2, 0)`
(length 2) decaying to `(0, 0)` and staying there; each stick's
crossing cycle emits its `ToOrigin` exactly once and the following
unchanged cycle emits none. -/
theorem C4_toOrigin_exactly_once_witness :
    (Controller.new wBothSticksVals).current.left_pos.lengthGt 1 = true
      ∧ (Controller.new wBothSticksVals).current.right_pos.lengthGt 1 = true
      ∧ wZeroVals.left_pos.lengthGt 1 = false
      ∧ wZeroVals.right_pos.lengthGt 1 = false
      ∧ (controller_update ((Controller.new wBothSticksVals).update wZeroVals) 1 0).count
          (HidEvent.Stick LR.Left StickEvt.ToOrigin) = 1
      ∧ (controller_update (((Controller.new wBothSticksVals).update wZeroVals).update
          wZeroVals) 1 0).count (HidEvent.Stick LR.Left StickEvt.ToOrigin) = 0
      ∧ (controller_update ((Controller.new wBothSticksVals).update wZeroVals) 1 0).count
          (HidEvent.Stick LR.Right StickEvt.ToOrigin) = 1
      ∧ (controller_update (((Controller.new wBothSticksVals).update wZeroVals).update
          wZeroVals) 1 0).count (HidEvent.Stick LR.Right StickEvt.ToOrigin) = 0 := by
  have hL1 : (Controller.new wBothSticksVals).current.left_pos.lengthGt 1 = true := by
    norm_num [Controller.new, wBothSticksVals, Coordinate.lengthGt, Coordinate.lengthSq]
  have hR1 : (Controller.new wBothSticksVals).current.right_pos.lengthGt 1 = true := by
    norm_num [Controller.new, wBothSticksVals, Coordinate.lengthGt, Coordinate.lengthSq]
  have hL0 : wZeroVals.left_pos.lengthGt 1 = false := by
    norm_num [wZeroVals, Coordinate.zero, Coordinate.lengthGt, Coordinate.lengthSq]
  have hR0 : wZeroVals.right_pos.lengthGt 1 = false := by
    norm_num [wZeroVals, Coordinate.zero, Coordinate.lengthGt, Coordinate.lengthSq]
  have h := C4_toOrigin_exactly_once (Controller.new wBothSticksVals) wZeroVals wZeroVals 1 0
  have hl := h.1 hL1 hL0 rfl
  have hr := h.2 hR1 hR0 rfl
  exact ⟨hL1, hR1, hL0, hR0, hl.1, hl.2, hr.1, hr.2⟩

/-- C5: with a stick threshold of `0`, every read with nonzero stick
magnitude is reported as `Moved` (changed) or `Active` (unchanged) and
a reading of exactly zero magnitude yields no `Moved`/`Active` — only
a `ToOrigin` exactly when the stick changed this cycle; with a trigger
threshold of `0` the same holds for the triggers (trigger magnitudes
being nonnegative readings). -/
theorem C5_threshold_zero_disables_deadzone (c : Controller) (ls lt : ℚ) :
    (c.left_pos.lengthSq ≠ 0 →
        (controller_update c 0 lt).filter onLeftStick =
          if c.left_pos_changed then [HidEvent.Stick LR.Left (StickEvt.Moved c.left_pos)]
          else [HidEvent.Stick LR.Left (StickEvt.Active c.left_pos)])
      ∧ (c.left_pos.lengthSq = 0 →
        (controller_update c 0 lt).filter onLeftStick =
          if c.left_pos_changed then [HidEvent.Stick LR.Left StickEvt.ToOrigin] else [])
      ∧ (c.right_pos.lengthSq ≠ 0 →
        (controller_update c 0 lt).filter onRightStick =
          if c.right_pos_changed then [HidEvent.Stick LR.Right (StickEvt.Moved c.right_pos)]
          else [HidEvent.Stick LR.Right (StickEvt.Active c.right_pos)])
      ∧ (c.right_pos.lengthSq = 0 →
        (controller_update c 0 lt).filter onRightStick =
          if c.right_pos_changed then [HidEvent.Stick LR.Right StickEvt.ToOrigin] else [])
      ∧ (0 ≤ c.left_trigger → c.left_trigger ≠ 0 →
        (controller_update c ls 0).filter onLeftTrigger =
          if c.left_trigger_changed then [HidEvent.Trigger LR.Left (TriggerEvt.Moved c.left_trigger)]
          else [HidEvent.Trigger LR.Left (TriggerEvt.Active c.left_trigger)])
      ∧ (c.left_trigger = 0 →
        (controller_update c ls 0).filter onLeftTrigger =
          if c.left_trigger_changed then [HidEvent.Trigger LR.Left TriggerEvt.ToOrigin] else [])
      ∧ (0 ≤ c.right_trigger → c.right_trigger ≠ 0 →
        (controller_update c ls 0).filter onRightTrigger =
          if c.right_trigger_changed then [HidEvent.Trigger LR.Right (TriggerEvt.Moved c.right_trigger)]
          else [HidEvent.Trigger LR.Right (TriggerEvt.Active c.right_trigger)])
      ∧ (c.right_trigger = 0 →
        (controller_update c ls 0).filter onRightTrigger =
          if c.right_trigger_changed then [HidEvent.Trigger LR.Right TriggerEvt.ToOrigin] else []) := by
  have key : ∀ co : Coordinate, co.lengthGt 0 = true ↔ co.lengthSq ≠ 0 := by
    intro co
    unfold Coordinate.lengthGt
    simp only [decide_eq_true_eq, mul_zero, lt_self_iff_false, false_or]
    exact ⟨fun h => (ne_of_gt h), fun h => lt_of_le_of_ne co.lengthSq_nonneg (Ne.symm h)⟩
  refine ⟨?_, ?_, ?_, ?_, ?_, ?_, ?_, ?_⟩
  · intro h
    rw [controller_update_filter_leftStick]
    unfold leftStickEvents
    rw [if_pos ((key _).mpr h)]
  · intro h
    rw [controller_update_filter_leftStick]
    unfold leftStickEvents
    rw [if_neg (fun hc => ((key _).mp hc) h)]
  · intro h
    rw [controller_update_filter_rightStick]
    unfold rightStickEvents
    rw [if_pos ((key _).mpr h)]
  · intro h
    rw [controller_update_filter_rightStick]
    unfold rightStickEvents
    rw [if_neg (fun hc => ((key _).mp hc) h)]
  · intro h0 hne
    rw [controller_update_filter_leftTrigger]
    unfold leftTriggerEvents
    rw [if_pos (lt_of_le_of_ne h0 (Ne.symm hne))]
  · intro h
    rw [controller_update_filter_leftTrigger]
    unfold leftTriggerEvents
    rw [if_neg (show ¬c.left_trigger > 0 by rw [h]; exact lt_irrefl 0)]
  · intro h0 hne
    rw [controller_update_filter_rightTrigger]
    unfold rightTriggerEvents
    rw [if_pos (lt_of_le_of_ne h0 (Ne.symm hne))]
  · intro h
    rw [controller_update_filter_rightTrigger]
    unfold rightTriggerEvents
    rw [if_neg (show ¬c.right_trigger > 0 by rw [h]; exact lt_irrefl 0)]

/-- Witness for C5: at thresholds `0`, a controller with all axes away
from rest and unchanged reports `Active` on the left stick and left
trigger, and a controller with all axes at zero and changed reports
only `ToOrigin` there. -/
theorem C5_threshold_zero_disables_deadzone_witness :
    (wActiveController.left_pos.lengthSq ≠ 0
      ∧ (controller_update wActiveController 0 0).filter onLeftStick =
          (if wActiveController.left_pos_changed then
            [HidEvent.Stick LR.Left (StickEvt.Moved wActiveController.left_pos)]
           else [HidEvent.Stick LR.Left (StickEvt.Active wActiveController.left_pos)]))
      ∧ (wChangedZeroController.left_pos.lengthSq = 0
        ∧ (controller_update wChangedZeroController 0 0).filter onLeftStick =
            (if wChangedZeroController.left_pos_changed then
              [HidEvent.Stick LR.Left StickEvt.ToOrigin]
             else []))
      ∧ (0 ≤ wActiveController.left_trigger ∧ wActiveController.left_trigger ≠ 0
        ∧ (controller_update wActiveController 0 0).filter onLeftTrigger =
            (if wActiveController.left_trigger_changed then
              [HidEvent.Trigger LR.Left (TriggerEvt.Moved wActiveController.left_trigger)]
             else [HidEvent.Trigger LR.Left (TriggerEvt.Active wActiveController.left_trigger)]))
      ∧ (wChangedZeroController.left_trigger = 0
        ∧ (controller_update wChangedZeroController 0 0).filter onLeftTrigger =
            (if wChangedZeroController.left_trigger_changed then
              [HidEvent.Trigger LR.Left TriggerEvt.ToOrigin]
             else [])) := by
  have ha1 : wActiveController.left_pos.lengthSq ≠ 0 := by
    norm_num [wActiveController, Controller.left_pos, Coordinate.lengthSq]
  have ha2 : (0 : ℚ) ≤ wActiveController.left_trigger := by
    norm_num [wActiveController, Controller.left_trigger]
  have ha3 : wActiveController.left_trigger ≠ 0 := by
    norm_num [wActiveController, Controller.left_trigger]
  have hz1 : wChangedZeroController.left_pos.lengthSq = 0 := by
    norm_num [wChangedZeroController, wZeroVals, Controller.left_pos, Coordinate.zero,
      Coordinate.lengthSq]
  have hz2 : wChangedZeroController.left_trigger = 0 := by
    norm_num [wChangedZeroController, wZeroVals, Controller.left_trigger]
  have hA := C5_threshold_zero_disables_deadzone wActiveController 0 0
  have hZ := C5_threshold_zero_disables_deadzone wChangedZeroController 0 0
  exact ⟨⟨ha1, hA.1 ha1⟩, ⟨hz1, hZ.2.1 hz1⟩, ⟨ha2, ha3, hA.2.2.2.2.1 ha2 ha3⟩,
    ⟨hz2, hZ.2.2.2.2.2.1 hz2⟩⟩

/-- C9: the precondition `stick_threshold ≥ 0` is not enforced: for
every negative stick threshold the test `length() > threshold` passes
for every coordinate (length is never negative), so a stick at zero
length that is unchanged this cycle still emits
`Stick(side, Active(current))` — and symmetrically for triggers with a
negative trigger threshold. -/
theorem C9_negative_threshold_active (c : Controller) (ls lt : ℚ)
    (hls : ls < 0) (hlt : lt < 0)
    (_hlp : c.left_pos.lengthSq = 0) (hlc : c.left_pos_changed = false)
    (_hrp : c.right_pos.lengthSq = 0) (hrc : c.right_pos_changed = false)
    (hlt0 : c.left_trigger = 0) (hltc : c.left_trigger_changed = false)
    (hrt0 : c.right_trigger = 0) (hrtc : c.right_trigger_changed = false) :
    (∀ co : Coordinate, co.lengthGt ls = true)
      ∧ (controller_update c ls lt).filter onLeftStick =
          [HidEvent.Stick LR.Left (StickEvt.Active c.left_pos)]
      ∧ (controller_update c ls lt).filter onRightStick =
          [HidEvent.Stick LR.Right (StickEvt.Active c.right_pos)]
      ∧ (controller_update c ls lt).filter onLeftTrigger =
          [HidEvent.Trigger LR.Left (TriggerEvt.Active c.left_trigger)]
      ∧ (controller_update c ls lt).filter onRightTrigger =
          [HidEvent.Trigger LR.Right (TriggerEvt.Active c.right_trigger)] := by
  have hall : ∀ co : Coordinate, co.lengthGt ls = true := by
    intro co
    unfold Coordinate.lengthGt
    exact decide_eq_true (Or.inl hls)
  refine ⟨hall, ?_, ?_, ?_, ?_⟩
  · rw [controller_update_filter_leftStick]
    unfold leftStickEvents
    rw [if_pos (hall _), hlc]
    rfl
  · rw [controller_update_filter_rightStick]
    unfold rightStickEvents
    rw [if_pos (hall _), hrc]
    rfl
  · rw [controller_update_filter_leftTrigger]
    unfold leftTriggerEvents
    rw [if_pos (show c.left_trigger > lt by rw [hlt0]; exact hlt), hltc]
    rfl
  · rw [controller_update_filter_rightTrigger]
    unfold rightTriggerEvents
    rw [if_pos (show c.right_trigger > lt by rw [hrt0]; exact hlt), hrtc]
    rfl

/-- Witness for C9: thresholds `-1`, a controller at rest with nothing
changed emits `Active` on every axis every cycle. -/
theorem C9_negative_threshold_active_witness :
    ((-1 : ℚ) < 0)
      ∧ (∀ co : Coordinate, co.lengthGt (-1) = true)
      ∧ (controller_update wRestController (-1) (-1)).filter onLeftStick =
          [HidEvent.Stick LR.Left (StickEvt.Active wRestController.left_pos)]
      ∧ (controller_update wRestController (-1) (-1)).filter onLeftTrigger =
          [HidEvent.Trigger LR.Left (TriggerEvt.Active wRestController.left_trigger)] := by
  have h := C9_negative_threshold_active wRestController (-1) (-1)
    (by norm_num) (by norm_num)
    (by norm_num [wRestController, wZeroVals, Controller.left_pos, Coordinate.zero,
      Coordinate.lengthSq])
    rfl
    (by norm_num [wRestController, wZeroVals, Controller.right_pos, Coordinate.zero,
      Coordinate.lengthSq])
    rfl rfl rfl rfl rfl
  exact ⟨by norm_num, h.1, h.2.1, h.2.2.2.1⟩

/-- C8: in the sampling loop every successful read is followed by
exactly decode (`ControllerValues::new`), then `Controller::update`,
then `handler.controller_update`, staying in the read loop; every read
failure abandons the connection back to the outer check, which
re-enters device discovery; and while no matching device is visible
the discovery loop retries indefinitely — sleeping the fixed 1000 ms
each iteration, with no backoff and no upper retry bound. -/
theorem C8_sampling_loop_policy (e1 e2 e3 : Env) (envs : Nat → Env) (n : Nat)
    (hs1 : e1.stopped = false) (hr1 : e1.readOk = true)
    (hs2 : e2.stopped = false) (hr2 : e2.readOk = false)
    (hf3 : foundDevice e3.devices = false)
    (hnf : ∀ k, foundDevice (envs k).devices = false) :
    loopStep e1 Phase.reading =
        (Phase.reading,
         [LoopAct.readReport, LoopAct.decode, LoopAct.updateController,
          LoopAct.handlerUpdate])
      ∧ loopStep e2 Phase.reading = (Phase.outerCheck, [LoopAct.readReport])
      ∧ loopStep e2 Phase.outerCheck = (Phase.discovery, [])
      ∧ loopStep e3 Phase.discovery =
          (Phase.discovery, [LoopAct.refresh, LoopAct.sleep 1000])
      ∧ iterPhase envs Phase.discovery n = Phase.discovery := by
  refine ⟨?_, ?_, ?_, ?_, iterPhase_discovery envs hnf n⟩
  · simp [loopStep, hs1, hr1]
  · simp [loopStep, hs2, hr2]
  · simp [loopStep, hs2]
  · simp [loopStep, hf3]

/-- Witness for C8: concrete environments (read success, read failure,
no matching device) and three discovery steps. -/
theorem C8_sampling_loop_policy_witness :
    loopStep ⟨false, [], true⟩ Phase.reading =
        (Phase.reading,
         [LoopAct.readReport, LoopAct.decode, LoopAct.updateController,
          LoopAct.handlerUpdate])
      ∧ loopStep ⟨false, [], false⟩ Phase.reading = (Phase.outerCheck, [LoopAct.readReport])
      ∧ loopStep ⟨false, [], false⟩ Phase.outerCheck = (Phase.discovery, [])
      ∧ loopStep wEnv Phase.discovery =
          (Phase.discovery, [LoopAct.refresh, LoopAct.sleep 1000])
      ∧ iterPhase (fun _ => wEnv) Phase.discovery 3 = Phase.discovery :=
  C8_sampling_loop_policy ⟨false, [], true⟩ ⟨false, [], false⟩ wEnv (fun _ => wEnv) 3
    rfl rfl rfl rfl (by decide) (fun _ => (by decide : foundDevice wEnv.devices = false))

/-- C10: the inner device-discovery loop never checks the stop flag:
its step is a function of the visible device list alone, and while no
device with vendor id 1356 and product id 616 is present the worker
stays in the discovery phase for every number of steps — whatever the
stop flag does — so it never reaches the terminated phase. -/
theorem C10_discovery_ignores_stop (envs : Nat → Env) (n : Nat)
    (h : ∀ k, foundDevice (envs k).devices = false) :
    iterPhase envs Phase.discovery n = Phase.discovery
      ∧ iterPhase envs Phase.discovery n ≠ Phase.done
      ∧ (∀ e e' : Env, e.devices = e'.devices →
          loopStep e Phase.discovery = loopStep e' Phase.discovery) := by
  have h1 := iterPhase_discovery envs h n
  refine ⟨h1, ?_, ?_⟩
  · rw [h1]
    decide
  · intro e e' hd
    simp [loopStep, hd]

/-- Witness for C10: the stop flag is raised and two devices are
visible, but neither matches `(1356, 616)`; after four steps the
worker is still discovering. -/
theorem C10_discovery_ignores_stop_witness :
    wEnv.stopped = true
      ∧ iterPhase (fun _ => wEnv) Phase.discovery 4 = Phase.discovery
      ∧ iterPhase (fun _ => wEnv) Phase.discovery 4 ≠ Phase.done := by
  have h := C10_discovery_ignores_stop (fun _ => wEnv) 4
    (fun _ => (by decide : foundDevice wEnv.devices = false))
  exact ⟨rfl, h.1, h.2.1⟩

end DS3
